import Mathlib

/-!
Verification of the browser-automation agent core: perception builder
(`collectSnapshotScript` in pageSnapshot.js), policy gate
(`checkDestructiveAction` in security.js), tool dispatcher (`executeTool` in
tools.js), click fallback chain (`BrowserController.clickElement` in
browser.js), dialog auto-accept wiring (`BrowserController.launch`), and the
control loop (`runAgent` in agent.js).

The JavaScript is shallowly embedded: JS strings become Lean `String`
(character-indexed; JS indexes UTF-16 units, which agrees on the ASCII
inputs used throughout), JS numbers appearing as element ids / tab indices /
seconds become `Int`, objects of parsed JSON arguments become association
lists of `JsonVal`, and fallible external calls (Playwright) become
`Except String Unit` valued capability records.  `undefined`-or-value fields
become `Option`.  Regular-expression matching of the destructive patterns is
embedded by a small token matcher (literal / `\s*` / `.` tokens with JS
`\b` word-boundary semantics, where word characters are ASCII `[A-Za-z0-9_]`).
-/

namespace Agent

/-! ## JS string primitives -/

/-- JS `a || b` on strings: `a` unless it is falsy (empty). -/
def jsOrS (a b : String) : String := if a = "" then b else a

/-- JS `String.prototype.slice(0, n)` (character-based on these inputs). -/
def jsSlice (s : String) (n : Nat) : String := ⟨s.data.take n⟩

/-- Drop leading whitespace of a character list. -/
def dropLeadingWs : List Char → List Char
  | [] => []
  | c :: cs => if c.isWhitespace then dropLeadingWs cs else c :: cs

/-- JS `String.prototype.trim` (whitespace off both ends). -/
def jsTrim (s : String) : String :=
  ⟨(dropLeadingWs (dropLeadingWs s.data.reverse).reverse)⟩

/-- JS `String.prototype.toLowerCase` (ASCII range, which covers the
    claim-relevant inputs; the stored patterns are already lowercase). -/
def jsLower (s : String) : String := ⟨s.data.map Char.toLower⟩

/-- JS `Array.prototype.join(sep)`. -/
def jsJoin (sep : String) : List String → String
  | [] => ""
  | [x] => x
  | x :: y :: xs => x ++ sep ++ jsJoin sep (y :: xs)

/-- Case-insensitive substring test, for the CSS selector `[class*="button" i]`. -/
def hasSubCI (hay needle : String) : Bool :=
  let rec go : List Char → List Char → Bool
    | _, [] => true
    | [], _ :: _ => false
    | h :: hs, n => (n.isPrefixOf (h :: hs)) || go hs n
  go (jsLower hay).data (jsLower needle).data

/-! ## Parsed JSON tool arguments -/

/-- A parsed JSON scalar, as produced by `JSON.parse` on tool-call arguments.
    (The tool catalog only declares scalar argument types.) -/
inductive JsonVal where
  | str (s : String)
  | num (n : Int)
  | bool (b : Bool)
  | null
deriving Repr, DecidableEq

/-- A parsed JSON argument object: association list of fields. -/
abbrev Args := List (String × JsonVal)

/-- JS property access `args.k` (first binding wins; parsed JSON objects have
    unique keys). -/
def Args.get (a : Args) (k : String) : Option JsonVal :=
  (a.find? (fun p => p.1 = k)).map (·.2)

/-- JS `typeof x === 'number' ? some it : none`. -/
def asNum : Option JsonVal → Option Int
  | some (.num n) => some n
  | _ => none

/-- JS `typeof x === 'string' ? some it : none`. -/
def asStr : Option JsonVal → Option String
  | some (.str s) => some s
  | _ => none

/-- JS `typeof x === 'boolean' ? some it : none`. -/
def asBool : Option JsonVal → Option Bool
  | some (.bool b) => some b
  | _ => none

/-- JS truthiness of an (optional) JSON value. -/
def jsTruthy : Option JsonVal → Bool
  | none => false
  | some (.str s) => s ≠ ""
  | some (.num n) => n ≠ 0
  | some (.bool b) => b
  | some .null => false

/-- JS string interpolation of an (optional) JSON value. -/
def jsValString : Option JsonVal → String
  | none => "undefined"
  | some (.str s) => s
  | some (.num n) => toString n
  | some (.bool b) => if b then "true" else "false"
  | some .null => "null"

/-- Decimal digits to a natural number. -/
def digitsToNat (ds : List Char) : Nat :=
  ds.foldl (fun acc c => acc * 10 + (c.toNat - 48)) 0

/-- JS `Number(x)` restricted to the integer grammar (the dispatcher only
    meets integers here); `none` models `NaN`. -/
def jsStringToNumber (s : String) : Option Int :=
  let t := jsTrim s
  if t = "" then some 0
  else
    match t.data with
    | '-' :: ds =>
        if ds ≠ [] ∧ ds.all Char.isDigit then some (-(digitsToNat ds : Int)) else none
    | '+' :: ds =>
        if ds ≠ [] ∧ ds.all Char.isDigit then some (digitsToNat ds) else none
    | ds =>
        if ds ≠ [] ∧ ds.all Char.isDigit then some (digitsToNat ds) else none

/-- JS `Number(x)` on an (optional) JSON value; `none` models `NaN`. -/
def jsNumber : Option JsonVal → Option Int
  | none => none
  | some (.num n) => some n
  | some (.str s) => jsStringToNumber s
  | some (.bool b) => some (if b then 1 else 0)
  | some .null => some 0

/-! ## Snapshot data model (pageSnapshot.js) -/

/-- Selector descriptor produced by `getStableSelector`:
    `.selector` (plain CSS), `.nth` (CSS plus occurrence index), or
    `.xpath` (text-qualified location path). -/
inductive SelectorDesc where
  | xpath (value : String)
  | nth (selector : String) (index : Int)
  | selector (value : String)
deriving Repr, DecidableEq

/-- One `{value, label}` entry of a choice element. -/
structure ChoiceOption where
  value : String
  label : String
deriving Repr, DecidableEq

/-- One captured snapshot element (pageSnapshot.js lines 283–298).
    Fields that the script sets to `x || undefined` are `Option String`. -/
structure Element where
  id : Nat
  role : String
  tagName : String
  text : String
  placeholder : Option String := none
  href : Option String := none
  value : Option String := none
  type : Option String := none
  labelText : Option String := none
  title : Option String := none
  selector : SelectorDesc := .selector ""
  isInDialog : Bool := false
  disabled : Bool := false
  options : Option (List ChoiceOption) := none
deriving Repr, DecidableEq

/-- A heading entry `{level, text}`. -/
structure Heading where
  level : Nat
  text : String
deriving Repr, DecidableEq

/-- One tab entry `{index, url, title}` of `BrowserController.getSnapshot`. -/
structure TabInfo where
  index : Nat
  url : String
  title : String
deriving Repr, DecidableEq

/-- The snapshot handed to the oracle and to the executor. -/
structure Snapshot where
  url : String
  title : String
  elements : List Element
  headings : List Heading := []
  contentExcerpt : String := ""
  tabs : List TabInfo := []
  activeTabIndex : Nat := 0
deriving Repr, DecidableEq

/-- `{success, message, stop?, userQuestion?}` as returned by `executeTool`
    or synthesized on policy denial. -/
structure ActionResult where
  success : Bool
  message : String
  stop : Bool := false
  userQuestion : Option String := none
deriving Repr, DecidableEq

/-- `{destructive, description?}` returned by the policy gate. -/
structure SecurityVerdict where
  destructive : Bool
  description : Option String := none
deriving Repr, DecidableEq

/-! ## Destructive-pattern matcher (security.js lines 6–15)

Each source pattern has the form `\b(alt₁|…|altₙ)\b` with the `i` flag; each
alternative is a sequence of literal runs separated by `\s*` or `.*`.  A
pattern is represented as `List (List Tok)` (alternatives, each a token
sequence), matched against the already-lowercased text. -/

/-- One token of a destructive-pattern alternative. -/
inductive Tok where
  | lit (w : String)
  | ws
  | any
deriving Repr, DecidableEq

/-- JS `\w` (ASCII word character). -/
def isWordCh (c : Char) : Bool := c.isAlpha || c.isDigit || c = '_'

/-- Word-character status of the character on one side of a position
    (`none` = beyond the string = non-word). -/
def wordish : Option Char → Bool
  | some c => isWordCh c
  | none => false

/-- JS `\b`: true iff word-ness differs across the position. -/
def boundaryB (a b : Option Char) : Bool := !(wordish a == wordish b)

/-- JS `\s` (the whitespace characters occurring in this domain). -/
def isJsSpace (c : Char) : Bool := c = ' ' || c = '\t' || c = '\n' || c = '\r'

/-- Consume a literal; returns the new preceding character and remainder. -/
def dropLit : List Char → Option Char → List Char → Option (Option Char × List Char)
  | [], prev, s => some (prev, s)
  | p :: ps, _, c :: cs => if p = c then dropLit ps (some c) cs else none
  | _ :: _, _, [] => none

/-- All ways `\s*` can consume a (possibly empty) whitespace run. -/
def wsTails : Option Char → List Char → List (Option Char × List Char)
  | prev, [] => [(prev, [])]
  | prev, c :: cs => (prev, c :: cs) :: (if isJsSpace c then wsTails (some c) cs else [])

/-- All ways `.*` can consume characters (JS `.` excludes newline). -/
def anyTails : Option Char → List Char → List (Option Char × List Char)
  | prev, [] => [(prev, [])]
  | prev, c :: cs => (prev, c :: cs) :: (if c ≠ '\n' then anyTails (some c) cs else [])

/-- Match a token sequence at the head of `s`; returns every
    (last consumed char, remainder) pair reachable. -/
def matchToks : List Tok → Option Char → List Char → List (Option Char × List Char)
  | [], prev, s => [(prev, s)]
  | .lit w :: ts, prev, s =>
      match dropLit w.data prev s with
      | some (p, rest) => matchToks ts p rest
      | none => []
  | .ws :: ts, prev, s => (wsTails prev s).flatMap (fun pr => matchToks ts pr.1 pr.2)
  | .any :: ts, prev, s => (anyTails prev s).flatMap (fun pr => matchToks ts pr.1 pr.2)

/-- `\b(alt₁|…)\b` anchored at the current position. -/
def matchHere (alts : List (List Tok)) (prev : Option Char) (s : List Char) : Bool :=
  boundaryB prev s.head? &&
    alts.any (fun a => (matchToks a prev s).any (fun pr => boundaryB pr.1 pr.2.head?))

/-- Scan all positions of the string, as `RegExp.prototype.test` does. -/
def scanPat (alts : List (List Tok)) : Option Char → List Char → Bool
  | prev, [] => matchHere alts prev []
  | prev, c :: cs => matchHere alts prev (c :: cs) || scanPat alts (some c) cs

/-- `pattern.test(text)` for one destructive pattern. -/
def patTest (alts : List (List Tok)) (s : String) : Bool := scanPat alts none s.data

/-- `/\b(pay|оплат|купи|buy)\b/i` -/
def pat1 : List (List Tok) := [[.lit "pay"], [.lit "оплат"], [.lit "купи"], [.lit "buy"]]

/-- `/\b(checkout|оформл|place\s*order|подтвержд.*заказ)\b/i` -/
def pat2 : List (List Tok) :=
  [[.lit "checkout"], [.lit "оформл"], [.lit "place", .ws, .lit "order"],
   [.lit "подтвержд", .any, .lit "заказ"]]

/-- `/\b(confirm\s*order|подтвердить)\b/i` -/
def pat3 : List (List Tok) := [[.lit "confirm", .ws, .lit "order"], [.lit "подтвердить"]]

/-- `/\b(delete|удал|remove|удалить)\b/i` -/
def pat4 : List (List Tok) := [[.lit "delete"], [.lit "удал"], [.lit "remove"], [.lit "удалить"]]

/-- `/\b(unsubscribe|отпис)\b/i` -/
def pat5 : List (List Tok) := [[.lit "unsubscribe"], [.lit "отпис"]]

/-- `/\b(cancel\s*subscription|отменить\s*подписк)\b/i` -/
def pat6 : List (List Tok) :=
  [[.lit "cancel", .ws, .lit "subscription"], [.lit "отменить", .ws, .lit "подписк"]]

/-- `/\b(send\s*money|перевод|transfer)\b/i` -/
def pat7 : List (List Tok) := [[.lit "send", .ws, .lit "money"], [.lit "перевод"], [.lit "transfer"]]

/-- `/\b(submit\s*payment|оплатить)\b/i` -/
def pat8 : List (List Tok) := [[.lit "submit", .ws, .lit "payment"], [.lit "оплатить"]]

/-- The fixed keyword table `DESTRUCTIVE_PATTERNS` of security.js. -/
def DESTRUCTIVE_PATTERNS : List (List (List Tok)) :=
  [pat1, pat2, pat3, pat4, pat5, pat6, pat7, pat8]

/-! ## Policy gate (security.js lines 24–55) -/

/-- The combined text surface
    `[el.text, el.value, el.title, el.labelText].filter(Boolean)
       .map(s => s.toLowerCase()).join(' ')`. -/
def textSurface (el : Element) : String :=
  let parts := ([some el.text, el.value, el.title, el.labelText].filterMap id).filter
    (fun s => s ≠ "")
  jsJoin " " (parts.map jsLower)

/-- `checkDestructiveAction(toolName, args, snapshot)` of security.js. -/
def checkDestructiveAction (toolName : String) (args : Args) (snapshot : Snapshot) :
    SecurityVerdict :=
  if toolName ≠ "click_element" then ⟨false, none⟩
  else
    match asNum (args.get "element_id") with
    | none => ⟨false, none⟩
    | some elementId =>
      match snapshot.elements.find? (fun e => (e.id : Int) = elementId) with
      | none => ⟨false, none⟩
      | some el =>
        let text := textSurface el
        if text = "" then ⟨false, none⟩
        else if DESTRUCTIVE_PATTERNS.any (fun p => patTest p text) then
          let description := jsTrim (jsSlice (jsOrS el.text (jsOrS (el.value.getD "") "Action")) 80)
          ⟨true, some (jsOrS description "Sensitive action")⟩
        else ⟨false, none⟩

/-! ## DOM model (the page seen by `collectSnapshotScript`)

A document node carries the data the collection script reads from the live
DOM: tag name (uppercase, as `Element.tagName` reports for HTML), attributes,
the `innerText` / `textContent` / `value` properties, bounding-box numbers
(ints; the script only compares against 2 and interpolates them), computed
visibility, and `<select>` options.  `document` is modelled by the `body`
subtree handed to the walker (elements outside `body` are not modelled). -/

/-- One `{value, text}` option of a live `<select>`. -/
structure SelOption where
  value : String
  text : String
deriving Repr, DecidableEq

/-- The data the script reads from one DOM element. -/
structure NodeInfo where
  tagName : String
  attrs : List (String × String)
  innerText : String := ""
  textContent : String := ""
  value : Option String := none
  rectW : Int := 100
  rectH : Int := 20
  rectTop : Int := 0
  rectLeft : Int := 0
  styleVisibilityHidden : Bool := false
  styleDisplayNone : Bool := false
  selectOptions : List SelOption := []
deriving Repr, DecidableEq

/-- A DOM element node with its child elements. -/
inductive Dom where
  | node (info : NodeInfo) (children : List Dom)

/-- Data of a node. -/
def Dom.info : Dom → NodeInfo
  | .node i _ => i

/-- Children of a node. -/
def Dom.children : Dom → List Dom
  | .node _ cs => cs

mutual
/-- Structural node equality (stands in for JS node identity in `indexOf`). -/
def domEq : Dom → Dom → Bool
  | .node i cs, .node j ds => i == j && domEqList cs ds
/-- Structural equality of child lists. -/
def domEqList : List Dom → List Dom → Bool
  | [], [] => true
  | c :: cs, d :: ds => domEq c d && domEqList cs ds
  | _, _ => false
end

mutual
/-- Document-order (pre-order) listing of a subtree, the order in which
    `querySelectorAll` reports matches. -/
def domList : Dom → List Dom
  | .node i cs => .node i cs :: domListL cs
/-- Document-order listing of a forest. -/
def domListL : List Dom → List Dom
  | [] => []
  | c :: cs => domList c ++ domListL cs
end

/-- `el.getAttribute(k)` (`none` = attribute absent = JS `null`). -/
def getAttr (info : NodeInfo) (k : String) : Option String :=
  (info.attrs.find? (fun p => p.1 = k)).map (·.2)

/-- `el.getAttribute(k) || ''`. -/
def attrD (info : NodeInfo) (k : String) : String := (getAttr info k).getD ""

/-- `el.hasAttribute(k)`. -/
def hasAttr (info : NodeInfo) (k : String) : Bool := (getAttr info k).isSome

/-- JS `array.indexOf` on document nodes (`-1` when absent). -/
def jsIndexOf (l : List Dom) (x : Dom) : Int :=
  match l.findIdx? (fun d => domEq d x) with
  | some i => (i : Int)
  | none => -1

/-! ## Stable selector derivation (pageSnapshot.js lines 168–189) -/

/-- The structural selector `tag[role=…][name=…][type=…]`, kept as a record so
    its `querySelectorAll` semantics can be evaluated on the document model
    (the descriptor itself stores the joined string, as the script does). -/
structure SelQuery where
  tag : String
  role : Option String
  name : Option String
  type : Option String
deriving Repr, DecidableEq

/-- The `text` expression of `getStableSelector`:
    `(el.innerText || el.value || el.getAttribute('aria-label') || '').trim().slice(0, 80)`. -/
def selText (info : NodeInfo) : String :=
  jsSlice (jsTrim (jsOrS info.innerText (jsOrS (info.value.getD "") (attrD info "aria-label")))) 80

/-- The attribute filters `getStableSelector` puts into the selector. -/
def selQueryOf (info : NodeInfo) : SelQuery :=
  let tag := jsLower info.tagName
  let role := attrD info "role"
  let name := jsTrim (attrD info "name")
  let type := jsTrim (attrD info "type")
  { tag := tag
    role := if role ≠ "" then some role else none
    name := if name ≠ "" ∧ (tag = "input" ∨ tag = "textarea") then some name else none
    type := if type ≠ "" ∧ tag = "input" then some type else none }

/-- The selector string `parts.join('')`. -/
def selectorStringOf (info : NodeInfo) : String :=
  let q := selQueryOf info
  q.tag
    ++ (match q.role with | some r => "[role=\"" ++ r ++ "\"]" | none => "")
    ++ (match q.name with | some n => "[name=\"" ++ n ++ "\"]" | none => "")
    ++ (match q.type with | some t => "[type=\"" ++ t ++ "\"]" | none => "")

/-- `querySelectorAll` semantics of the derived structural selector. -/
def matchesSelQuery (q : SelQuery) (info : NodeInfo) : Bool :=
  jsLower info.tagName == q.tag
    && (match q.role with | some r => attrD info "role" == r | none => true)
    && (match q.name with | some n => attrD info "name" == n | none => true)
    && (match q.type with | some t => attrD info "type" == t | none => true)

/-- The escaping applied to the text put into the XPath:
    `\ → \\`, `" → \"`, newline → space. -/
def escapeXPathText (s : String) : String :=
  ⟨s.data.flatMap (fun c =>
    if c = '\\' then ['\\', '\\']
    else if c = '"' then ['\\', '"']
    else if c = '\n' then [' ']
    else [c])⟩

/-- `getStableSelector(el)`: plain selector when it matches at most one node,
    text-qualified XPath when several nodes match and the element has text,
    nth-occurrence selector when several match and there is no text. -/
def getStableSelector (root : Dom) (n : Dom) : SelectorDesc :=
  let info := n.info
  let text := selText info
  let q := selQueryOf info
  let selector := selectorStringOf info
  let all := (domList root).filter (fun m => matchesSelQuery q m.info)
  if all.length > 1 ∧ text ≠ "" then
    .xpath ("//" ++ selector ++ "[contains(normalize-space(.), \"" ++ escapeXPathText text ++ "\")]")
  else if all.length > 1 then
    .nth selector (jsIndexOf all n)
  else
    .selector selector

/-! ## Element capture (pageSnapshot.js lines 147–313) -/

/-- Element cap of the collection script. -/
def MAX_ELEMENTS : Nat := 200

/-- Content-excerpt budget of the collection script. -/
def MAX_CONTENT_CHARS : Nat := 1200

/-- Heading cap of the collection script. -/
def MAX_HEADINGS : Nat := 30

/-- `getAssociatedLabelText(el)`: a `label[for]` matching the element's id,
    else the nearest `LABEL` ancestor strictly below `body` (threaded through
    the walk as `nearestLabel`). -/
def getAssociatedLabelText (root : Dom) (nearestLabel : Option String) (info : NodeInfo) : String :=
  let id := attrD info "id"
  let byFor :=
    if id ≠ "" then
      (domList root).find? (fun d => jsLower d.info.tagName == "label" && attrD d.info "for" == id)
    else none
  match byFor with
  | some lab => jsSlice (jsTrim lab.info.textContent) 80
  | none =>
    match nearestLabel with
    | some t => jsSlice (jsTrim t) 80
    | none => ""

/-- Membership in the fixed interactive selector list (pageSnapshot.js
    lines 191–206).  `type` attribute values compare ASCII-case-insensitively,
    as CSS does for HTML `type`. -/
def matchesInteractive (info : NodeInfo) : Bool :=
  let tag := jsLower info.tagName
  (tag == "a" && hasAttr info "href")
    || tag == "button"
    || attrD info "role" == "button"
    || (tag == "a" && hasSubCI (attrD info "class") "button")
    || attrD info "role" == "switch"
    || (tag == "input" && jsLower (attrD info "type") != "hidden")
    || tag == "textarea"
    || tag == "select"
    || attrD info "role" == "link"
    || attrD info "role" == "menuitem"
    || attrD info "role" == "tab"
    || attrD info "role" == "option"
    || attrD info "contenteditable" == "true"
    || (hasAttr info "tabindex" && attrD info "tabindex" != "-1")

/-- The canonical-interactive test of line 300
    (`a, button, input, textarea, select, [role="button"], [role="link"]`);
    matching elements are not descended into. -/
def matchesClickish (info : NodeInfo) : Bool :=
  let tag := jsLower info.tagName
  tag == "a" || tag == "button" || tag == "input" || tag == "textarea" || tag == "select"
    || attrD info "role" == "button" || attrD info "role" == "link"

/-- Display-text resolution of line 270: own text, else aria-label, else
    title, else value, else placeholder hint, else href hint, else
    associated-label hint. -/
def displayText (text ariaLabel titleAttr value placeholder href labelText : String) : String :=
  jsOrS text (jsOrS ariaLabel (jsOrS titleAttr (jsOrS value
    (jsOrS (if placeholder ≠ "" then "placeholder: " ++ placeholder else "")
      (jsOrS (if href ≠ "" then "link: " ++ href else "")
        (if labelText ≠ "" then "label: " ++ labelText else ""))))))

/-- Context threaded down the walk: whether some ancestor-or-self chain
    already contains a dialog role (for `el.closest('[role="dialog"], …')`),
    the `textContent` of the nearest `LABEL` strict ancestor below `body`
    (for the parent loop of `getAssociatedLabelText`), and whether the
    current node is the `body` root (whose tag the parent loop never reads). -/
structure Ctx where
  dialog : Bool
  nearestLabel : Option String
  atBody : Bool
deriving Repr

/-- Mutable state of the walk: the dedup key set and the captured elements. -/
structure WalkState where
  seen : List String
  elements : List Element
deriving Repr

/-- `elements.push({ id: elements.length + 1, … })`. -/
def pushElement (st : WalkState) (mk : Nat → Element) : WalkState :=
  { st with elements := st.elements ++ [mk (st.elements.length + 1)] }

/-- Dialog-role test used by `closest('[role="dialog"], [role="alertdialog"]')`. -/
def dialogRole (info : NodeInfo) : Bool :=
  attrD info "role" == "dialog" || attrD info "role" == "alertdialog"

mutual
/-- The `walk` closure of `collectSnapshotScript` (lines 226–303): cap check,
    interactive-predicate test, visibility filter, dedup, capture, and
    conditional descent. -/
def walkNode (root : Dom) (ctx : Ctx) (st : WalkState) : Dom → WalkState
  | .node info children =>
    if st.elements.length ≥ MAX_ELEMENTS then st
    else
      let childCtx : Ctx :=
        { dialog := ctx.dialog || dialogRole info
          nearestLabel :=
            if ctx.atBody then none
            else if info.tagName == "LABEL" then some info.textContent
            else ctx.nearestLabel
          atBody := false }
      if ! matchesInteractive info then walkChildren root childCtx st children
      else
        let isButtonLike := attrD info "role" == "button"
          || (info.tagName == "A" && attrD info "href" != "")
        let hasLab :=
          jsTrim (jsOrS info.innerText (jsOrS info.textContent (attrD info "aria-label"))) ≠ ""
        let skipSmall := info.rectW < 2 || info.rectH < 2
        if skipSmall && !(isButtonLike && decide hasLab) then
          walkChildren root childCtx st children
        else if info.styleVisibilityHidden || info.styleDisplayNone then
          walkChildren root childCtx st children
        else
          let rawInner := jsTrim (jsOrS info.innerText info.textContent)
          let key := info.tagName ++ "-" ++ jsSlice rawInner 50 ++ "-" ++ attrD info "href"
            ++ "-" ++ toString info.rectTop ++ "-" ++ toString info.rectLeft
          if st.seen.contains key then walkChildren root childCtx st children
          else
            let st1 : WalkState := { st with seen := key :: st.seen }
            let tagNameL := jsLower info.tagName
            let text := jsSlice rawInner 200
            let titleAttr := jsSlice (jsTrim (attrD info "title")) 100
            let placeholder := jsSlice (jsTrim (attrD info "placeholder")) 60
            let href := jsTrim (attrD info "href")
            let ariaLabel := jsSlice (jsTrim (attrD info "aria-label")) 100
            let value := jsSlice (jsTrim (info.value.getD "")) 100
            let typeAttr := jsTrim (attrD info "type")
            let labelText :=
              if tagNameL == "input" || tagNameL == "textarea" || tagNameL == "select" then
                getAssociatedLabelText root ctx.nearestLabel info
              else ""
            let disp := displayText text ariaLabel titleAttr value placeholder href labelText
            let inDialog := ctx.dialog || dialogRole info
            let disabled := hasAttr info "disabled" || attrD info "aria-disabled" == "true"
            let opts : Option (List ChoiceOption) :=
              if tagNameL == "select" then
                some ((info.selectOptions.take 30).map (fun o =>
                  { value := jsOrS o.value o.text, label := jsSlice (jsTrim o.text) 60 }))
              else none
            let sel := getStableSelector root (.node info children)
            let st2 := pushElement st1 (fun idNum =>
              { id := idNum
                role := jsOrS (attrD info "role") tagNameL
                tagName := tagNameL
                text := disp
                placeholder := if placeholder ≠ "" then some placeholder else none
                href := if href ≠ "" then some href else none
                value := if value ≠ "" then some value else none
                type := if typeAttr ≠ "" then some typeAttr else none
                labelText := if labelText ≠ "" then some labelText else none
                title := if titleAttr ≠ "" then some titleAttr else none
                selector := sel
                isInDialog := inDialog
                disabled := disabled
                options := opts })
            if ! matchesClickish info then walkChildren root childCtx st2 children else st2

/-- Sequential walk over a child list, threading the state. -/
def walkChildren (root : Dom) (ctx : Ctx) (st : WalkState) : List Dom → WalkState
  | [] => st
  | c :: cs => walkChildren root ctx (walkNode root ctx st c) cs
end

/-- Heading tag test of `querySelectorAll('H1,H2,H3,H4,H5,H6')`. -/
def isHeadingTag (info : NodeInfo) : Bool :=
  let tag := jsLower info.tagName
  tag == "h1" || tag == "h2" || tag == "h3" || tag == "h4" || tag == "h5" || tag == "h6"

/-- `parseInt(h.tagName.charAt(1), 10)`. -/
def headingLevel (info : NodeInfo) : Nat :=
  ((info.tagName.data.get? 1).getD '0').toNat - '0'.toNat

/-- The heading pass (lines 213–219): first 30 non-empty heading texts in
    document order, each trimmed and truncated to 120 characters. -/
def collectHeadings (root : Dom) : List Heading :=
  ((domList root).filter (fun d => isHeadingTag d.info)).foldl
    (fun acc d =>
      if acc.length ≥ MAX_HEADINGS then acc
      else
        let t := jsSlice (jsTrim d.info.textContent) 120
        if t ≠ "" then acc ++ [⟨headingLevel d.info, t⟩] else acc) []

/-- `\s+ → ' '` collapsing used on the content excerpt. -/
def collapseWsAux : Bool → List Char → List Char
  | _, [] => []
  | inRun, c :: cs =>
    if isJsSpace c then
      (if inRun then collapseWsAux true cs else ' ' :: collapseWsAux true cs)
    else c :: collapseWsAux false cs

/-- `text.replace(/\s+/g, ' ')`. -/
def collapseWs (s : String) : String := ⟨collapseWsAux false s.data⟩

/-- The excerpt pass (lines 221–224): text of the first `main, [role="main"]`
    (else the body), whitespace-collapsed, trimmed, capped. -/
def contentExcerptOf (root : Dom) : String :=
  let mainEl := ((domList root).find?
    (fun d => jsLower d.info.tagName == "main" || attrD d.info "role" == "main")).getD root
  let raw := jsTrim (collapseWs mainEl.info.textContent)
  if raw ≠ "" then jsSlice raw MAX_CONTENT_CHARS else ""

/-- Walk context for the top-level `walk(root)` call on `document.body`. -/
def initialCtx : Ctx := { dialog := false, nearestLabel := none, atBody := true }

/-- Initial walk state (`seen` empty, no elements). -/
def initialWalkState : WalkState := { seen := [], elements := [] }

/-- `collectSnapshotScript()`: the whole in-page collection (lines 147–313);
    `body = none` models a document without a `body`. -/
def collectSnapshotScript (body : Option Dom) (url title : String) : Snapshot :=
  match body with
  | none => { url := "", title := "", elements := [], headings := [], contentExcerpt := "" }
  | some root =>
    { url := url
      title := title
      elements := (walkNode root initialCtx initialWalkState root).elements
      headings := collectHeadings root
      contentExcerpt := contentExcerptOf root }

/-! ## Prompt rendering (pageSnapshot.js lines 328–380) -/

/-- One element line of the rendering. -/
def elementLine (el : Element) : String :=
  "  " ++ toString el.id ++ ". [" ++ el.tagName
    ++ (match el.type with | some t => " type=" ++ t | none => "") ++ "]"
    ++ (if el.role == "button" then " (button)" else "")
    ++ (if el.isInDialog then " (in modal/dialog)" else "")
    ++ (if el.disabled then " (disabled)" else "")
    ++ (match el.labelText with | some l => " label=\"" ++ l ++ "\"" | none => "")
    ++ (if el.text ≠ "" then " \"" ++ jsSlice el.text 100 ++ "\"" else "")
    ++ (match el.placeholder with | some p => " placeholder=\"" ++ p ++ "\"" | none => "")
    ++ (match el.value with
        | some v => if v ≠ "" then " value=\"" ++ jsSlice v 50 ++ "\"" else ""
        | none => "")
    ++ (match el.href with | some h => " href=\"" ++ jsSlice h 60 ++ "\"" | none => "")
    ++ (match el.options with
        | some os =>
          if os.length ≠ 0 then
            let opts := ((os.map (fun o => jsOrS o.label o.value)).filter (· ≠ "")).take 15
            " options: " ++ jsJoin ", " opts ++ (if os.length > 15 then "…" else "")
          else ""
        | none => "")

/-- `formatSnapshotForPrompt(snapshot)`: the compact text the oracle sees. -/
def formatSnapshotForPrompt (snapshot : Snapshot) : String :=
  let tabLines : List String :=
    if snapshot.tabs.length ≠ 0 then
      ("Tabs (current tab marked with *):"
        :: snapshot.tabs.map (fun t =>
            let mark := if t.index = snapshot.activeTabIndex then "*" else " "
            "  " ++ toString t.index ++ mark ++ ": " ++ jsSlice (jsOrS t.title "(no title)") 50
              ++ " — " ++ jsSlice (jsOrS t.url "about:blank") 70)) ++ [""]
    else []
  let headLines : List String :=
    if snapshot.headings.length ≠ 0 then
      ("Structure (headings):"
        :: snapshot.headings.map (fun h =>
            "  " ++ (⟨List.replicate h.level '#'⟩ : String) ++ " " ++ h.text)) ++ [""]
    else []
  let contentLines : List String :=
    if snapshot.contentExcerpt ≠ "" then
      ["Page content (excerpt):", snapshot.contentExcerpt, ""]
    else []
  let elementLines : List String :=
    "Interactive elements (use id to click or type):" :: snapshot.elements.map elementLine
  let truncLines : List String :=
    if snapshot.elements.length ≥ MAX_ELEMENTS then
      ["  ... (page truncated to " ++ toString MAX_ELEMENTS ++ " elements)"]
    else []
  jsJoin "\n" (tabLines
    ++ ["URL: " ++ snapshot.url, "Title: " ++ snapshot.title, ""]
    ++ headLines ++ contentLines ++ elementLines ++ truncLines)

/-! ## Environment capability provider (browser.js, abstracted)

The concrete automation engine is external; each capability is a possibly
failing call (`.error` = a thrown exception / rejected promise).
`pagesCount` stands for `getPages().length` as observed after `newTab`. -/

/-- The capability record `executeTool` drives. -/
structure Browser where
  navigate : String → Except String Unit
  newTab : Option String → Except String Unit
  pagesCount : Nat
  switchTab : Int → Except String Unit
  clickElement : Snapshot → Int → Except String Unit
  typeText : Snapshot → Option Int → String → Except String Unit
  selectOption : Snapshot → Int → String → Except String Unit
  setCheckbox : Snapshot → Int → Bool → Except String Unit
  scroll : String → Except String Unit

/-! ## Tool dispatcher (tools.js lines 176–299) -/

/-- `executeTool(name, args, { snapshot, browser })`.  A returned `.error`
    models an exception escaping the dispatcher (only `navigate` and `scroll`
    invoke the environment outside a try/catch). -/
def executeTool (name : String) (args : Args) (snapshot : Snapshot) (browser : Browser) :
    Except String ActionResult :=
  if name = "navigate" then
    match asStr (args.get "url") with
    | none => .ok ⟨false, "url must be a string", false, none⟩
    | some url =>
      match browser.navigate url with
      | .ok _ => .ok ⟨true, "Navigated to " ++ url, false, none⟩
      | .error e => .error e
  else if name = "open_new_tab" then
    let url := args.get "url"
    match browser.newTab (asStr url) with
    | .ok _ =>
      let idx := browser.pagesCount - 1
      .ok ⟨true,
        if jsTruthy url then
          "Opened new tab " ++ toString idx ++ " and navigated to " ++ jsValString url
        else
          "Opened new tab " ++ toString idx ++ " (blank). Use navigate(url) to go to a page.",
        false, none⟩
    | .error e => .ok ⟨false, e, false, none⟩
  else if name = "switch_tab" then
    match asNum (args.get "tab_index") with
    | none => .ok ⟨false, "tab_index must be a number", false, none⟩
    | some t =>
      match browser.switchTab t with
      | .ok _ => .ok ⟨true, "Switched to tab " ++ toString t, false, none⟩
      | .error e => .ok ⟨false, e, false, none⟩
  else if name = "click_element" then
    match asNum (args.get "element_id") with
    | none => .ok ⟨false, "element_id must be a number", false, none⟩
    | some elementId =>
      let targetEl := snapshot.elements.find? (fun e => (e.id : Int) = elementId)
      if (targetEl.map (·.disabled)).getD false then
        .ok ⟨false,
          "Element is disabled. Fill required fields or wait for it to become enabled, then try again.",
          false, none⟩
      else
        match browser.clickElement snapshot elementId with
        | .ok _ => .ok ⟨true, "Clicked element " ++ toString elementId, false, none⟩
        | .error msg =>
          .ok ⟨false,
            msg ++ ". Try scroll(down) to bring the element into view, then wait(2), then click again; or the element may have changed (re-check snapshot).",
            false, none⟩
  else if name = "type_text" then
    match asStr (args.get "text") with
    | none => .ok ⟨false, "text must be a string", false, none⟩
    | some text =>
      match browser.typeText snapshot (asNum (args.get "element_id")) text with
      | .ok _ =>
        .ok ⟨true,
          "Typed text into "
            ++ (match args.get "element_id" with
                | none => "focused field"
                | some .null => "focused field"
                | some v => "element " ++ jsValString (some v)),
          false, none⟩
      | .error e => .ok ⟨false, e, false, none⟩
  else if name = "select_option" then
    match asNum (args.get "element_id") with
    | none => .ok ⟨false, "element_id must be a number", false, none⟩
    | some elementId =>
      match asStr (args.get "value_or_label") with
      | none => .ok ⟨false, "value_or_label must be a string", false, none⟩
      | some v =>
        match browser.selectOption snapshot elementId v with
        | .ok _ => .ok ⟨true, "Selected \"" ++ v ++ "\" in element " ++ toString elementId, false, none⟩
        | .error e => .ok ⟨false, e, false, none⟩
  else if name = "set_checkbox" then
    match asNum (args.get "element_id") with
    | none => .ok ⟨false, "element_id must be a number", false, none⟩
    | some elementId =>
      match asBool (args.get "checked") with
      | none => .ok ⟨false, "checked must be a boolean", false, none⟩
      | some checked =>
        match browser.setCheckbox snapshot elementId checked with
        | .ok _ =>
          .ok ⟨true, (if checked then "Checked" else "Unchecked") ++ " element " ++ toString elementId,
            false, none⟩
        | .error e => .ok ⟨false, e, false, none⟩
  else if name = "scroll" then
    match args.get "direction" with
    | some (.str d) =>
      if d = "up" ∨ d = "down" ∨ d = "left" ∨ d = "right" then
        match browser.scroll d with
        | .ok _ => .ok ⟨true, "Scrolled " ++ d, false, none⟩
        | .error e => .error e
      else .ok ⟨false, "direction must be up, down, left, or right", false, none⟩
    | _ => .ok ⟨false, "direction must be up, down, left, or right", false, none⟩
  else if name = "wait" then
    let sec0 : Int :=
      match jsNumber (args.get "seconds") with
      | none => 2
      | some n => if n = 0 then 2 else n
    let sec := min 10 (max 1 sec0)
    .ok ⟨true, "Waited " ++ toString sec ++ " seconds", false, none⟩
  else if name = "task_done" then
    .ok ⟨true, (match asStr (args.get "result") with | some r => r | none => "Done"), true, none⟩
  else if name = "request_user_input" then
    let q := asStr (args.get "question")
    .ok ⟨true, (match q with | some s => s | none => "Need your input"), true, q⟩
  else .ok ⟨false, "Unknown tool: " ++ name, false, none⟩

/-! ## Control loop (agent.js) -/

/-- One transcript turn.  `assistantToolCall` records the raw tool-call echo
    (content `null` in the source), `tool` the tool-result turn. -/
inductive Msg where
  | system (content : String)
  | user (content : String)
  | assistant (content : String)
  | assistantToolCall (toolName : String) (rawArgs : String)
  | tool (content : String)
deriving Repr, DecidableEq

/-- `messages[1].content += …` support. -/
def appendContent : Msg → String → Msg
  | .system c, s => .system (c ++ s)
  | .user c, s => .user (c ++ s)
  | .assistant c, s => .assistant (c ++ s)
  | .assistantToolCall n r, _ => .assistantToolCall n r
  | .tool c, s => .tool (c ++ s)

/-- One oracle (chat-completion) response, reduced to what the loop reads:
    no choice at all; a plain-text stop turn; a tool call (first entry of
    `tool_calls`, with already-parsed arguments — malformed JSON parses to
    the empty object per the `catch`); or any other non-tool turn. -/
inductive Decision where
  | noChoice
  | textStop (content : Option String)
  | toolCall (toolName : String) (args : Args) (rawArgs : String)
  | textOther (content : Option String)

/-- What `runAgent` returns. -/
structure RunResult where
  done : Bool
  result : Option String := none
  userQuestion : Option String := none
  error : Option String := none
deriving Repr, DecidableEq

/-- The loop's collaborators: the decision oracle (a black box over the
    transcript, indexed by iteration so its answers may vary over time), the
    per-iteration snapshot the environment reports, the capability record,
    the optional confirmation capability, and the prompt seeds. -/
structure AgentDeps where
  oracle : Nat → List Msg → Decision
  getSnapshot : Nat → Snapshot
  browser : Browser
  getUserConfirmation : Option (String → Bool)
  systemPrompt : String
  userTask : String

/-- `MAX_ITERATIONS` of agent.js. -/
def MAX_ITERATIONS : Nat := 80

/-- The gate-then-execute step of agent.js lines 96–107: run the policy gate;
    when destructive and a confirmation capability exists, ask it — denial
    synthesizes the failure result without dispatching, approval (or a
    non-destructive verdict, or no capability) dispatches `executeTool`. -/
def decideActionResult (name : String) (args : Args) (snapshot : Snapshot)
    (getUserConfirmation : Option (String → Bool)) (browser : Browser) :
    Except String ActionResult :=
  let security := checkDestructiveAction name args snapshot
  match getUserConfirmation with
  | some confirm =>
    if security.destructive then
      if confirm (security.description.getD "Sensitive action") then
        executeTool name args snapshot browser
      else .ok ⟨false, "User denied the action.", false, none⟩
    else executeTool name args snapshot browser
  | none => executeTool name args snapshot browser

/-- Appending the snapshot turn: merged into `messages[1]` on the first
    iteration, pushed as a fresh user turn afterwards. -/
def pushStateMsg (msgs : List Msg) (i : Nat) (stateContent : String) : List Msg :=
  if i = 0 then
    match msgs with
    | m0 :: m1 :: rest => m0 :: appendContent m1 ("\n\n" ++ stateContent) :: rest
    | other => other
  else msgs ++ [.user stateContent]

/-- The iteration loop of `runAgent` (agent.js lines 41–137), with fuel
    counting the remaining iterations and, paired with the result, the
    number of loop cycles actually entered.  A `.error` models an exception
    escaping the loop (the loop has no try/catch). -/
def runAgentAux (deps : AgentDeps) : Nat → Nat → List Msg → Except String (RunResult × Nat)
  | 0, _, _ => .ok ({ done := false, error := some "Max iterations reached" }, 0)
  | fuel + 1, i, msgs =>
    let snapshot := deps.getSnapshot i
    let stateContent := "Current page state:\n\n" ++ formatSnapshotForPrompt snapshot
    let msgs1 := pushStateMsg msgs i stateContent
    match deps.oracle i msgs1 with
    | .noChoice => .ok ({ done := false, error := some "No response from model" }, 1)
    | .textStop content =>
      (runAgentAux deps fuel (i + 1)
        (msgs1 ++ [.assistant (jsOrS (content.getD "") "(no content)")])).map
        (fun rn => (rn.1, rn.2 + 1))
    | .textOther content =>
      (runAgentAux deps fuel (i + 1) (msgs1 ++ [.assistant (content.getD "")])).map
        (fun rn => (rn.1, rn.2 + 1))
    | .toolCall name args rawArgs =>
      let msgs2 := msgs1 ++ [.assistantToolCall name (jsOrS rawArgs "\x7b\x7d")]
      match decideActionResult name args snapshot deps.getUserConfirmation deps.browser with
      | .error e => .error e
      | .ok result =>
        let msgs3 := msgs2
          ++ [.tool (if result.success then result.message else "Error: " ++ result.message)]
        if result.stop then
          .ok ({ done := true, result := some result.message, userQuestion := result.userQuestion }, 1)
        else
          (runAgentAux deps fuel (i + 1) msgs3).map (fun rn => (rn.1, rn.2 + 1))

/-- The seeded transcript of agent.js lines 36–39. -/
def initialMessages (deps : AgentDeps) : List Msg :=
  [.system deps.systemPrompt,
   .user ("Current task from user: " ++ deps.userTask
     ++ "\n\nWhat is the current state of the page? Decide the next action. If you see a blank page or no relevant content, navigate first. Otherwise use the element ids from the snapshot below.")]

/-- `runAgent(deps, userTask)`: the full loop from the seeded transcript. -/
def runAgent (deps : AgentDeps) : Except String (RunResult × Nat) :=
  runAgentAux deps MAX_ITERATIONS 0 (initialMessages deps)

/-! ## Click fallback chain (browser.js lines 270–313)

The Playwright attempts are external calls; `ClickEnv` records each one's
outcome, and the model returns the sequence of attempts actually made,
in order, alongside the overall outcome. -/

/-- Outcomes of the external click attempts for one `clickElement` call. -/
structure ClickEnv where
  waitVisible : Except String Unit
  scrollIntoView : Except String Unit
  nativeClick : Except String Unit
  forceClick : Except String Unit
  jsClick : Except String Unit
  innerLinkClick : Except String Unit

/-- One attempted strategy, in the log of attempts. -/
inductive ClickAttempt where
  | jsEvaluate
  | innerLink
  | native
  | force
deriving Repr, DecidableEq

/-- The try/catch chain of lines 300–311: native click, then forced click,
    then the in-page synthetic dispatch. -/
def clickTiers (pre : List ClickAttempt) (env : ClickEnv) :
    List ClickAttempt × Except String Unit :=
  match env.nativeClick with
  | .ok _ => (pre ++ [.native], .ok ())
  | .error _ =>
    match env.forceClick with
    | .ok _ => (pre ++ [.native, .force], .ok ())
    | .error _ => (pre ++ [.native, .force, .jsEvaluate], env.jsClick)

/-- `BrowserController.clickElement(snapshot, elementId)`: element lookup,
    visibility wait and scroll (failures propagate), the wrapper-card special
    case (synthetic dispatch first, then the inner-link click, then falling
    through), and the three-tier chain. -/
def clickElementModel (snapshot : Snapshot) (elementId : Int) (env : ClickEnv) :
    List ClickAttempt × Except String Unit :=
  match snapshot.elements.find? (fun e => (e.id : Int) = elementId) with
  | none => ([], .error ("Element id not found in snapshot: " ++ toString elementId))
  | some el =>
    match env.waitVisible with
    | .error e => ([], .error e)
    | .ok _ =>
      match env.scrollIntoView with
      | .error e => ([], .error e)
      | .ok _ =>
        if (el.tagName = "div" ∨ el.tagName = "span") ∧ el.role = "button" then
          match env.jsClick with
          | .ok _ => ([.jsEvaluate], .ok ())
          | .error _ =>
            match env.innerLinkClick with
            | .ok _ => ([.jsEvaluate, .innerLink], .ok ())
            | .error _ => clickTiers [.jsEvaluate, .innerLink] env
        else clickTiers [] env

/-! ## Dialog auto-accept wiring (browser.js lines 127–133 and 153–168) -/

/-- The native dialog kinds Playwright reports. -/
inductive DialogKind where
  | alert
  | confirm
  | prompt
deriving Repr, DecidableEq

/-- What a dialog handler does with a dialog. -/
inductive DialogResponse where
  | accept
  | dismiss
deriving Repr, DecidableEq

/-- The handler `#attachDialogHandler` registers: `dialog => dialog.accept()`. -/
def dialogHandlerResponse : DialogKind → DialogResponse := fun _ => .accept

/-- A page with its registered dialog handlers. -/
structure PageModel where
  dialogHandlers : List (DialogKind → DialogResponse)

/-- `#attachDialogHandler(page)`: registers the accepting handler. -/
def attachDialogHandler (p : PageModel) : PageModel :=
  { p with dialogHandlers := p.dialogHandlers ++ [dialogHandlerResponse] }

/-- The context after `launch`: its pages and the listener that
    `context.on('page', …)` will run on every future page. -/
structure LaunchedContext where
  pages : List PageModel
  onPage : PageModel → PageModel

/-- The wiring of `launch` (lines 159–160): attach the handler to every
    existing page and register it for every future page. -/
def launchDialogWiring (initialPages : List PageModel) : LaunchedContext :=
  { pages := initialPages.map attachDialogHandler, onPage := attachDialogHandler }

/-- A new page opening later: the registered listener runs on it. -/
def addPage (c : LaunchedContext) (p : PageModel) : LaunchedContext :=
  { c with pages := c.pages ++ [c.onPage p] }

/-- Any sequence of pages opening after launch. -/
def addPages (c : LaunchedContext) (ps : List PageModel) : LaunchedContext :=
  ps.foldl addPage c

/-! ## Specification-side definitions and fixtures -/

/-- Modelled from the spec: "display text (resolved by priority …, each …)" —
    the first non-empty candidate of a priority list, for comparison with the
    source's `||` chain. -/
def firstNonempty : List String → String
  | [] => ""
  | s :: rest => if s = "" then firstNonempty rest else s

/-- An environment in which every capability call succeeds. -/
def okBrowser : Browser :=
  { navigate := fun _ => .ok ()
    newTab := fun _ => .ok ()
    pagesCount := 1
    switchTab := fun _ => .ok ()
    clickElement := fun _ _ => .ok ()
    typeText := fun _ _ _ => .ok ()
    selectOption := fun _ _ _ => .ok ()
    setCheckbox := fun _ _ _ => .ok ()
    scroll := fun _ => .ok () }

/-- An environment whose field-manipulation capabilities all fail, to expose
    whether the dispatcher invoked them. -/
def failBrowser : Browser :=
  { okBrowser with
    typeText := fun _ _ _ => .error "typeText rejected"
    selectOption := fun _ _ _ => .error "selectOption rejected"
    setCheckbox := fun _ _ _ => .error "setCheckbox rejected" }

/-- Arguments addressing element 3 with payloads for every field tool. -/
def disabledArgs : Args :=
  [("element_id", .num 3), ("text", .str "hi"),
   ("value_or_label", .str "opt"), ("checked", .bool true)]

/-- A snapshot element whose whole text surface is `"Cancel"`. -/
def cancelButton (k : Nat) : Element :=
  { id := k, role := "button", tagName := "button", text := "Cancel" }

/-- A one-element snapshot with a "Cancel" button. -/
def cancelSnap : Snapshot :=
  { url := "https://example.com", title := "Account", elements := [cancelButton 2] }

/-- A one-element snapshot with a "Delete account" button. -/
def deleteSnap : Snapshot :=
  { url := "https://example.com", title := "Account",
    elements := [{ id := 1, role := "button", tagName := "button", text := "Delete account" }] }

/-- A snapshot whose element 3 is disabled. -/
def disabledSnap : Snapshot :=
  { url := "https://example.com", title := "Form",
    elements := [{ id := 3, role := "button", tagName := "button", text := "Submit",
                   disabled := true }] }

/-- A snapshot with a plain (non-wrapper) anchor element 5. -/
def anchorSnap : Snapshot :=
  { url := "https://example.com", title := "Page",
    elements := [{ id := 5, role := "a", tagName := "a", text := "Go" }] }

/-- Click-environment outcomes: every attempt succeeds. -/
def envAllOk : ClickEnv :=
  { waitVisible := .ok (), scrollIntoView := .ok (), nativeClick := .ok ()
    forceClick := .ok (), jsClick := .ok (), innerLinkClick := .ok () }

/-- Click-environment outcomes: the native click times out, the rest succeed. -/
def envTier1Fails : ClickEnv :=
  { envAllOk with nativeClick := .error "Timeout 10000ms exceeded" }

/-- A single-button document for the selector-derivation witness. -/
def bodyOnlyDoc : Dom := .node { tagName := "BODY", attrs := [] } []

/-- Dependencies whose oracle immediately finishes the task. -/
def depsTaskDone : AgentDeps :=
  { oracle := fun _ _ => .toolCall "task_done" [("result", .str "booked the flight")] ""
    getSnapshot := fun _ => collectSnapshotScript none "" ""
    browser := okBrowser
    getUserConfirmation := none
    systemPrompt := "sys"
    userTask := "task" }

/-- Dependencies whose oracle always picks the non-terminal `wait` tool. -/
def depsWaitForever : AgentDeps :=
  { depsTaskDone with oracle := fun _ _ => .toolCall "wait" [("seconds", .num 2)] "" }

/-! ## Helper lemmas -/

/-- A string starting from a non-empty literal is non-empty. -/
theorem append_ne_empty_of_ne (pre tail : String) (h : pre.data ≠ []) : pre ++ tail ≠ "" := by
  intro hc
  have hd : (pre ++ tail).data = [] := by rw [hc]
  rw [String.data_append] at hd
  exact h (List.append_eq_nil.mp hd).1

/-- `a || ''` is `a` for JS strings. -/
theorem jsOrS_empty_right (x : String) : jsOrS x "" = x := by
  unfold jsOrS; split_ifs with h; exacts [h.symm, rfl]

/-! ## C9: display-text priority -/

/-- C9: the display text of a captured element is resolved by exactly one
    winning path in the fixed total priority order own text → aria-label →
    title → value → placeholder-hint → href-hint → associated-label-hint —
    `displayText` (applied by `walkNode` to every captured element) equals the
    first non-empty entry of that candidate list, so a later source is used
    only when every earlier source is empty. -/
theorem C9_displayText_priority
    (text ariaLabel titleAttr value placeholder href labelText : String) :
    displayText text ariaLabel titleAttr value placeholder href labelText
      = firstNonempty [text, ariaLabel, titleAttr, value,
          if placeholder ≠ "" then "placeholder: " ++ placeholder else "",
          if href ≠ "" then "link: " ++ href else "",
          if labelText ≠ "" then "label: " ++ labelText else ""] := by
  show jsOrS text (jsOrS ariaLabel (jsOrS titleAttr (jsOrS value
      (jsOrS (if placeholder ≠ "" then "placeholder: " ++ placeholder else "")
        (jsOrS (if href ≠ "" then "link: " ++ href else "")
          (if labelText ≠ "" then "label: " ++ labelText else ""))))))
    = jsOrS text (jsOrS ariaLabel (jsOrS titleAttr (jsOrS value
      (jsOrS (if placeholder ≠ "" then "placeholder: " ++ placeholder else "")
        (jsOrS (if href ≠ "" then "link: " ++ href else "")
          (jsOrS (if labelText ≠ "" then "label: " ++ labelText else "") ""))))))
  exact congrArg _ (congrArg _ (congrArg _ (congrArg _ (congrArg _ (congrArg _
    (jsOrS_empty_right _).symm)))))

/-! ## C10: native dialogs are auto-accepted on every page -/

/-- Every page of a context launched with the dialog wiring, including pages
    added later through the registered `page` listener, carries the accepting
    handler. -/
theorem addPages_accepting (extra : List PageModel) (c : LaunchedContext)
    (hpages : ∀ q ∈ c.pages, dialogHandlerResponse ∈ q.dialogHandlers)
    (hon : c.onPage = attachDialogHandler) :
    ∀ p ∈ (addPages c extra).pages, dialogHandlerResponse ∈ p.dialogHandlers := by
  induction extra generalizing c with
  | nil => simpa [addPages] using hpages
  | cons q qs ih =>
    intro p hp
    refine ih { pages := c.pages ++ [c.onPage q], onPage := c.onPage } ?_ hon p hp
    intro r hr
    rcases List.mem_append.mp hr with hr | hr
    · exact hpages r hr
    · rcases List.mem_singleton.mp hr with rfl
      rw [hon]
      exact List.mem_append_right _ (List.mem_singleton_self _)

/-- C10: the dialog handler is attached to every page existing at launch and
    to every page opened afterwards (via the registered context listener),
    and that handler accepts every native dialog (alert/confirm/prompt), so
    no native dialog ever waits on the loop or reaches the policy gate. -/
theorem C10_dialogs_auto_accepted (initialPages extra : List PageModel)
    (p : PageModel) (hp : p ∈ (addPages (launchDialogWiring initialPages) extra).pages) :
    dialogHandlerResponse ∈ p.dialogHandlers
      ∧ ∀ k, dialogHandlerResponse k = DialogResponse.accept := by
  refine ⟨addPages_accepting extra (launchDialogWiring initialPages) ?_ rfl p hp, fun k => rfl⟩
  intro q hq
  rcases List.mem_map.mp hq with ⟨q₀, _, rfl⟩
  exact List.mem_append_right _ (List.mem_singleton_self _)

/-- C10 witness: a context launched with one page and one later-opened page;
    both carry the accepting handler. -/
theorem C10_dialogs_auto_accepted_witness :
    dialogHandlerResponse ∈ (attachDialogHandler ⟨[]⟩).dialogHandlers
      ∧ ∀ k, dialogHandlerResponse k = DialogResponse.accept :=
  C10_dialogs_auto_accepted [⟨[]⟩] [⟨[]⟩] (attachDialogHandler ⟨[]⟩)
    (by simp [addPages, addPage, launchDialogWiring])

/-! ## C2: policy-gate classification -/

/-- The delete pattern matches any text beginning `delete<space>…`. -/
theorem scanPat_delete (cs : List Char) :
    scanPat pat4 none ('d' :: 'e' :: 'l' :: 'e' :: 't' :: 'e' :: ' ' :: cs) = true := rfl

/-- A space-joined list headed by "delete account" starts with `delete<space>`. -/
theorem jsJoin_delete_head (rest : List String) :
    ∃ cs, (jsJoin " " ("delete account" :: rest)).data
      = 'd' :: 'e' :: 'l' :: 'e' :: 't' :: 'e' :: ' ' :: cs := by
  cases rest with
  | nil => exact ⟨['a','c','c','o','u','n','t'], rfl⟩
  | cons y ys =>
    exact ⟨'a' :: 'c' :: 'c' :: 'o' :: 'u' :: 'n' :: 't' :: ' ' :: (jsJoin " " (y :: ys)).data, rfl⟩

/-- The combined text surface of a "Delete account" element starts with
    `delete<space>`, whatever its other text fields hold. -/
theorem textSurface_delete (el : Element) (h : el.text = "Delete account") :
    ∃ cs, (textSurface el).data = 'd' :: 'e' :: 'l' :: 'e' :: 't' :: 'e' :: ' ' :: cs := by
  have hjl : jsLower "Delete account" = "delete account" := rfl
  unfold textSurface
  rw [h]
  simp only [List.filterMap_cons, id_eq, List.filter_cons, List.map_cons, hjl]
  rw [if_pos (by decide)]
  simp only [List.map_cons, hjl]
  exact jsJoin_delete_head _

/-- C2: the gate flags a click on an element whose text is "Delete account";
    it does not flag a click on a "Cancel" element; it never flags a
    non-click tool; and a missing / non-numeric / unmatched `element_id`
    yields `destructive = false`. -/
theorem C2_policy_gate_classification :
    (∀ (args : Args) (snapshot : Snapshot) (n : Int) (el : Element),
        asNum (args.get "element_id") = some n →
        snapshot.elements.find? (fun e => (e.id : Int) = n) = some el →
        el.text = "Delete account" →
        (checkDestructiveAction "click_element" args snapshot).destructive = true)
    ∧ (∀ (args : Args) (snapshot : Snapshot) (n : Int) (k : Nat),
        asNum (args.get "element_id") = some n →
        snapshot.elements.find? (fun e => (e.id : Int) = n) = some (cancelButton k) →
        (checkDestructiveAction "click_element" args snapshot).destructive = false)
    ∧ (∀ (toolName : String), toolName ≠ "click_element" →
        ∀ (args : Args) (snapshot : Snapshot),
        (checkDestructiveAction toolName args snapshot).destructive = false)
    ∧ (∀ (args : Args) (snapshot : Snapshot),
        asNum (args.get "element_id") = none →
        (checkDestructiveAction "click_element" args snapshot).destructive = false)
    ∧ (∀ (args : Args) (snapshot : Snapshot) (n : Int),
        asNum (args.get "element_id") = some n →
        snapshot.elements.find? (fun e => (e.id : Int) = n) = none →
        (checkDestructiveAction "click_element" args snapshot).destructive = false) := by
  refine ⟨?_, ?_, ?_, ?_, ?_⟩
  · intro args snapshot n el hid hfind htext
    obtain ⟨cs, hdata⟩ := textSurface_delete el htext
    have hne : textSurface el ≠ "" := by
      intro h0; rw [h0] at hdata; exact absurd hdata (by simp)
    have hany : DESTRUCTIVE_PATTERNS.any (fun p => patTest p (textSurface el)) = true := by
      refine List.any_eq_true.mpr ⟨pat4, by simp [DESTRUCTIVE_PATTERNS], ?_⟩
      unfold patTest
      rw [hdata]
      exact scanPat_delete cs
    simp +decide [checkDestructiveAction, hid, hfind, hne, hany]
  · intro args snapshot n k hid hfind
    have hts : textSurface (cancelButton k) = "cancel" := rfl
    have hany : DESTRUCTIVE_PATTERNS.any (fun p => patTest p "cancel") = false := by decide
    simp +decide [checkDestructiveAction, hid, hfind, hts, hany]
  · intro toolName h args snapshot
    simp [checkDestructiveAction, h]
  · intro args snapshot hid
    simp +decide [checkDestructiveAction, hid]
  · intro args snapshot n hid hfind
    simp +decide [checkDestructiveAction, hid, hfind]

/-- C2 witness: the five cases at concrete inputs — a "Delete account" click
    is destructive; a "Cancel" click, a non-click tool, a missing id, and an
    unmatched id are not. -/
theorem C2_policy_gate_classification_witness :
    ((checkDestructiveAction "click_element" [("element_id", .num 1)] deleteSnap).destructive
        = true)
    ∧ ((checkDestructiveAction "click_element" [("element_id", .num 2)] cancelSnap).destructive
        = false)
    ∧ ((checkDestructiveAction "type_text" [("text", .str "delete everything")]
          deleteSnap).destructive = false)
    ∧ ((checkDestructiveAction "click_element" [] deleteSnap).destructive = false)
    ∧ ((checkDestructiveAction "click_element" [("element_id", .num 9)] deleteSnap).destructive
        = false) :=
  ⟨C2_policy_gate_classification.1 [("element_id", .num 1)] deleteSnap 1
      { id := 1, role := "button", tagName := "button", text := "Delete account" } rfl rfl rfl,
   C2_policy_gate_classification.2.1 [("element_id", .num 2)] cancelSnap 2 2 rfl rfl,
   C2_policy_gate_classification.2.2.1 "type_text" (by decide)
      [("text", .str "delete everything")] deleteSnap,
   C2_policy_gate_classification.2.2.2.1 [] deleteSnap rfl,
   C2_policy_gate_classification.2.2.2.2 [("element_id", .num 9)] deleteSnap 9 rfl rfl⟩

/-! ## C8: click fallback ordering -/

/-- C8: for a non-wrapper element, when the tier-1 native click raises, the
    tier-2 forced click is attempted before the tier-3 script-level dispatch
    is ever attempted (the attempt log is `[native, force]` or
    `[native, force, jsEvaluate]`); and when tier-1 succeeds, neither tier-2
    nor tier-3 is invoked (the log is exactly `[native]`). -/
theorem C8_click_tier_ordering (snapshot : Snapshot) (elementId : Int) (el : Element)
    (env : ClickEnv)
    (hfind : snapshot.elements.find? (fun e => (e.id : Int) = elementId) = some el)
    (hwrap : ¬ ((el.tagName = "div" ∨ el.tagName = "span") ∧ el.role = "button"))
    (hwait : env.waitVisible = .ok ())
    (hscroll : env.scrollIntoView = .ok ()) :
    (env.nativeClick = .ok () → (clickElementModel snapshot elementId env).1 = [.native])
    ∧ (∀ e, env.nativeClick = .error e →
        (clickElementModel snapshot elementId env).1 = [.native, .force]
        ∨ (clickElementModel snapshot elementId env).1 = [.native, .force, .jsEvaluate]) := by
  constructor
  · intro h1
    simp [clickElementModel, hfind, hwait, hscroll, hwrap, clickTiers, h1]
  · intro e h1
    rcases hf : env.forceClick with u | f
    · right
      simp [clickElementModel, hfind, hwait, hscroll, hwrap, clickTiers, h1, hf]
    · left
      simp [clickElementModel, hfind, hwait, hscroll, hwrap, clickTiers, h1, hf]

/-- C8 witness: on the concrete anchor snapshot, a successful tier-1 click
    attempts only the native tier, and a timed-out tier-1 click attempts the
    forced tier next. -/
theorem C8_click_tier_ordering_witness :
    (clickElementModel anchorSnap 5 envAllOk).1 = [.native]
    ∧ ((clickElementModel anchorSnap 5 envTier1Fails).1 = [.native, .force]
        ∨ (clickElementModel anchorSnap 5 envTier1Fails).1 = [.native, .force, .jsEvaluate]) :=
  ⟨(C8_click_tier_ordering anchorSnap 5 _ envAllOk rfl (by decide) rfl rfl).1 rfl,
   (C8_click_tier_ordering anchorSnap 5 _ envTier1Fails rfl (by decide) rfl rfl).2
     "Timeout 10000ms exceeded" rfl⟩

/-! ## C6: disabled-target rejection (corrected — only clicks are gated) -/

/-- C6 counterexample: typing into the disabled element 3 is not rejected
    before execution — the dispatcher invokes the environment: with a
    succeeding environment the action reports success, and with a failing
    one the environment's error (not the precondition message) surfaces in
    the result, so the disabled flag never short-circuits `type_text`. -/
theorem C6_disabled_counterexample :
    executeTool "type_text" disabledArgs disabledSnap okBrowser
      = .ok ⟨true, "Typed text into element 3", false, none⟩
    ∧ executeTool "type_text" disabledArgs disabledSnap failBrowser
      = .ok ⟨false, "typeText rejected", false, none⟩ := ⟨rfl, rfl⟩

/-- C6 (amended): only `click_element` rejects a disabled target before any
    execution tier or environment call, returning the recoverable
    precondition ActionResult for every environment alike; `type_text`,
    `select_option` and `set_checkbox` perform no disabled check and
    dispatch straight to the environment, whose outcome (here: its error)
    reaches the returned ActionResult. -/
theorem C6_amended_disabled_scope (args : Args) (snapshot : Snapshot) (n : Int) (el : Element)
    (hid : asNum (args.get "element_id") = some n)
    (hfind : snapshot.elements.find? (fun e => (e.id : Int) = n) = some el)
    (hdis : el.disabled = true) :
    (∀ browser : Browser,
      executeTool "click_element" args snapshot browser
        = .ok ⟨false,
            "Element is disabled. Fill required fields or wait for it to become enabled, then try again.",
            false, none⟩)
    ∧ (∀ (browser : Browser) (text e : String),
        asStr (args.get "text") = some text →
        browser.typeText snapshot (asNum (args.get "element_id")) text = .error e →
        executeTool "type_text" args snapshot browser = .ok ⟨false, e, false, none⟩)
    ∧ (∀ (browser : Browser) (v e : String),
        asStr (args.get "value_or_label") = some v →
        browser.selectOption snapshot n v = .error e →
        executeTool "select_option" args snapshot browser = .ok ⟨false, e, false, none⟩)
    ∧ (∀ (browser : Browser) (checked : Bool) (e : String),
        asBool (args.get "checked") = some checked →
        browser.setCheckbox snapshot n checked = .error e →
        executeTool "set_checkbox" args snapshot browser = .ok ⟨false, e, false, none⟩) := by
  refine ⟨fun browser => ?_, fun browser text e ht hb => ?_, fun browser v e hv hb => ?_,
    fun browser checked e hc hb => ?_⟩
  · simp +decide only [executeTool]
    rw [hid]
    simp [hfind, hdis]
  · simp +decide [executeTool, ht, hb]
  · simp +decide [executeTool, hid, hv, hb]
  · simp +decide [executeTool, hid, hc, hb]

/-- C6 witness for the amended claim: on the disabled element 3, the click is
    rejected with the precondition message while the three field tools reach
    the (failing) environment and surface its errors. -/
theorem C6_amended_disabled_scope_witness :
    (executeTool "click_element" disabledArgs disabledSnap okBrowser
      = .ok ⟨false,
          "Element is disabled. Fill required fields or wait for it to become enabled, then try again.",
          false, none⟩)
    ∧ (executeTool "type_text" disabledArgs disabledSnap failBrowser
      = .ok ⟨false, "typeText rejected", false, none⟩)
    ∧ (executeTool "select_option" disabledArgs disabledSnap failBrowser
      = .ok ⟨false, "selectOption rejected", false, none⟩)
    ∧ (executeTool "set_checkbox" disabledArgs disabledSnap failBrowser
      = .ok ⟨false, "setCheckbox rejected", false, none⟩) :=
  ⟨(C6_amended_disabled_scope disabledArgs disabledSnap 3 _ rfl rfl rfl).1 okBrowser,
   (C6_amended_disabled_scope disabledArgs disabledSnap 3 _ rfl rfl rfl).2.1 failBrowser
     "hi" "typeText rejected" rfl rfl,
   (C6_amended_disabled_scope disabledArgs disabledSnap 3 _ rfl rfl rfl).2.2.1 failBrowser
     "opt" "selectOption rejected" rfl rfl,
   (C6_amended_disabled_scope disabledArgs disabledSnap 3 _ rfl rfl rfl).2.2.2 failBrowser
     true "setCheckbox rejected" rfl rfl⟩

/-! ## C7: argument validation (corrected — `wait` does not validate) -/

/-- C7 counterexample: with `seconds` missing entirely, the `wait` tool does
    not return a validation error — it executes and succeeds with the coerced
    default (`Number(undefined) || 2` = 2 seconds), contradicting the claim
    that a missing or non-numeric `seconds` yields a validation error. -/
theorem C7_wait_counterexample :
    executeTool "wait" [] deleteSnap okBrowser
      = .ok ⟨true, "Waited 2 seconds", false, none⟩ := rfl

/-- C7 (amended): the environment-facing tools validate their declared
    required arguments before execution and return a structured
    `success = false` ActionResult (not an exception) on a missing or
    wrongly-typed argument — `navigate.url`, `switch_tab.tab_index`,
    `click_element.element_id`, `type_text.text`, both `select_option`
    arguments, both `set_checkbox` arguments, and `scroll.direction`.  The
    three remaining tools do not validate their declared required arguments:
    `wait` coerces a missing or non-numeric `seconds` to the default 2
    (clamped into 1–10) and executes successfully, and `task_done` /
    `request_user_input` substitute the defaults "Done" / "Need your input"
    for a missing or non-string payload, returning `success = true` with
    `stop = true`. -/
theorem C7_amended_validation (args : Args) (snapshot : Snapshot) (browser : Browser) :
    (asStr (args.get "url") = none →
      executeTool "navigate" args snapshot browser
        = .ok ⟨false, "url must be a string", false, none⟩)
    ∧ (asNum (args.get "tab_index") = none →
      executeTool "switch_tab" args snapshot browser
        = .ok ⟨false, "tab_index must be a number", false, none⟩)
    ∧ (asNum (args.get "element_id") = none →
      executeTool "click_element" args snapshot browser
        = .ok ⟨false, "element_id must be a number", false, none⟩)
    ∧ (asStr (args.get "text") = none →
      executeTool "type_text" args snapshot browser
        = .ok ⟨false, "text must be a string", false, none⟩)
    ∧ (asNum (args.get "element_id") = none →
      executeTool "select_option" args snapshot browser
        = .ok ⟨false, "element_id must be a number", false, none⟩)
    ∧ (∀ n, asNum (args.get "element_id") = some n →
      asStr (args.get "value_or_label") = none →
      executeTool "select_option" args snapshot browser
        = .ok ⟨false, "value_or_label must be a string", false, none⟩)
    ∧ (asNum (args.get "element_id") = none →
      executeTool "set_checkbox" args snapshot browser
        = .ok ⟨false, "element_id must be a number", false, none⟩)
    ∧ (∀ n, asNum (args.get "element_id") = some n →
      asBool (args.get "checked") = none →
      executeTool "set_checkbox" args snapshot browser
        = .ok ⟨false, "checked must be a boolean", false, none⟩)
    ∧ (asStr (args.get "direction") = none →
      executeTool "scroll" args snapshot browser
        = .ok ⟨false, "direction must be up, down, left, or right", false, none⟩)
    ∧ (args.get "seconds" = none →
      executeTool "wait" args snapshot browser
        = .ok ⟨true, "Waited 2 seconds", false, none⟩)
    ∧ (∀ s, args.get "seconds" = some (.str s) → jsStringToNumber s = none →
      executeTool "wait" args snapshot browser
        = .ok ⟨true, "Waited 2 seconds", false, none⟩)
    ∧ (asStr (args.get "result") = none →
      executeTool "task_done" args snapshot browser
        = .ok ⟨true, "Done", true, none⟩)
    ∧ (asStr (args.get "question") = none →
      executeTool "request_user_input" args snapshot browser
        = .ok ⟨true, "Need your input", true, none⟩) := by
  refine ⟨fun h => ?_, fun h => ?_, fun h => ?_, fun h => ?_, fun h => ?_,
    fun n hn hv => ?_, fun h => ?_, fun n hn hc => ?_,
    fun h => ?_, fun h => ?_, fun s hs hn => ?_, fun h => ?_, fun h => ?_⟩
  · simp +decide [executeTool, h]
  · simp +decide [executeTool, h]
  · simp +decide [executeTool, h]
  · simp +decide [executeTool, h]
  · simp +decide [executeTool, h]
  · simp +decide [executeTool, hn, hv]
  · simp +decide [executeTool, h]
  · simp +decide [executeTool, hn, hc]
  · rcases hv : args.get "direction" with _ | v
    · simp +decide [executeTool, hv]
    · cases v
      case str d => rw [hv] at h; exact absurd h (by simp [asStr])
      all_goals simp +decide [executeTool, hv]
  · simp +decide [executeTool, h, jsNumber]
  · simp +decide [executeTool, hs, jsNumber, hn]
  · simp +decide [executeTool, h]
  · simp +decide [executeTool, h]

/-- C7 witness for the amended claim: with concrete argument objects,
    `navigate`, `select_option` and `set_checkbox` report validation errors,
    while `wait` (seconds missing or non-numeric), `task_done` and
    `request_user_input` execute with their defaults. -/
theorem C7_amended_validation_witness :
    (executeTool "navigate" [] deleteSnap okBrowser
      = .ok ⟨false, "url must be a string", false, none⟩)
    ∧ (executeTool "select_option" [("element_id", .num 1)] deleteSnap okBrowser
      = .ok ⟨false, "value_or_label must be a string", false, none⟩)
    ∧ (executeTool "set_checkbox" [("element_id", .num 1)] deleteSnap okBrowser
      = .ok ⟨false, "checked must be a boolean", false, none⟩)
    ∧ (executeTool "wait" [] deleteSnap okBrowser
      = .ok ⟨true, "Waited 2 seconds", false, none⟩)
    ∧ (executeTool "wait" [("seconds", .str "soon")] deleteSnap okBrowser
      = .ok ⟨true, "Waited 2 seconds", false, none⟩)
    ∧ (executeTool "task_done" [] deleteSnap okBrowser
      = .ok ⟨true, "Done", true, none⟩)
    ∧ (executeTool "request_user_input" [] deleteSnap okBrowser
      = .ok ⟨true, "Need your input", true, none⟩) :=
  ⟨(C7_amended_validation [] deleteSnap okBrowser).1 rfl,
   (C7_amended_validation [("element_id", .num 1)] deleteSnap okBrowser).2.2.2.2.2.1
     1 rfl rfl,
   (C7_amended_validation [("element_id", .num 1)] deleteSnap okBrowser).2.2.2.2.2.2.2.1
     1 rfl rfl,
   (C7_amended_validation [] deleteSnap okBrowser).2.2.2.2.2.2.2.2.2.1 rfl,
   (C7_amended_validation [("seconds", .str "soon")] deleteSnap
       okBrowser).2.2.2.2.2.2.2.2.2.2.1 "soon" rfl rfl,
   (C7_amended_validation [] deleteSnap okBrowser).2.2.2.2.2.2.2.2.2.2.2.1 rfl,
   (C7_amended_validation [] deleteSnap okBrowser).2.2.2.2.2.2.2.2.2.2.2.2 rfl⟩

/-! ## C3: snapshot id density and cap -/

/-- The walk invariant: ids so far are exactly `1..len` in order, and the
    element count respects the cap. -/
def WalkInv (st : WalkState) : Prop :=
  st.elements.map (·.id) = List.range' 1 st.elements.length
    ∧ st.elements.length ≤ MAX_ELEMENTS

/-- Pushing with `id := elements.length + 1` preserves the invariant while
    below the cap. -/
theorem pushElement_inv (st : WalkState) (mk : Nat → Element)
    (hmk : (mk (st.elements.length + 1)).id = st.elements.length + 1)
    (h : WalkInv st) (hlt : st.elements.length < MAX_ELEMENTS) :
    WalkInv (pushElement st mk) := by
  constructor
  · show (st.elements ++ [mk (st.elements.length + 1)]).map (·.id)
      = List.range' 1 (st.elements ++ [mk (st.elements.length + 1)]).length
    rw [List.map_append, List.length_append]
    simp only [List.map_cons, List.map_nil, List.length_cons, List.length_nil, hmk, h.1]
    rw [List.range'_concat]
    simp [Nat.add_comm]
  · show (st.elements ++ [mk (st.elements.length + 1)]).length ≤ MAX_ELEMENTS
    rw [List.length_append]
    simpa using hlt

set_option maxHeartbeats 2000000 in
mutual
/-- The walk preserves the id invariant on a node. -/
theorem walkNode_inv (root : Dom) (ctx : Ctx) (st : WalkState) (n : Dom)
    (h : WalkInv st) : WalkInv (walkNode root ctx st n) := by
  cases n with
  | node info children =>
    simp only [walkNode]
    split
    · exact h
    next hcap =>
      split
      · exact walkChildren_inv root _ st children h
      · split
        · exact walkChildren_inv root _ st children h
        · split
          · exact walkChildren_inv root _ st children h
          · split
            · exact walkChildren_inv root _ st children h
            · split
              · exact walkChildren_inv root _ _ children
                  (pushElement_inv _ _ rfl h (Nat.lt_of_not_le hcap))
              · exact pushElement_inv _ _ rfl h (Nat.lt_of_not_le hcap)

/-- The walk preserves the id invariant on a child list. -/
theorem walkChildren_inv (root : Dom) (ctx : Ctx) (st : WalkState) (l : List Dom)
    (h : WalkInv st) : WalkInv (walkChildren root ctx st l) := by
  cases l with
  | nil => simpa [walkChildren] using h
  | cons c cs =>
    simp only [walkChildren]
    exact walkChildren_inv root ctx _ cs (walkNode_inv root ctx st c h)
end

/-- C3: in every snapshot the collection script produces, the element ids are
    the dense sequence `1..N` in traversal order, `N` never exceeds the
    200-element cap, and no two elements share an id. -/
theorem C3_snapshot_ids_dense (body : Option Dom) (url title : String) :
    ((collectSnapshotScript body url title).elements.map (·.id)
        = List.range' 1 (collectSnapshotScript body url title).elements.length)
    ∧ (collectSnapshotScript body url title).elements.length ≤ MAX_ELEMENTS
    ∧ ((collectSnapshotScript body url title).elements.map (·.id)).Nodup := by
  cases body with
  | none => exact ⟨rfl, by simp [collectSnapshotScript, MAX_ELEMENTS], by simp [collectSnapshotScript]⟩
  | some root =>
    have h : WalkInv (walkNode root initialCtx initialWalkState root) :=
      walkNode_inv root initialCtx initialWalkState root ⟨rfl, by simp [initialWalkState]⟩
    refine ⟨h.1, h.2, ?_⟩
    rw [show ((collectSnapshotScript (some root) url title).elements.map (·.id))
        = List.range' 1 (collectSnapshotScript (some root) url title).elements.length from h.1]
    exact List.nodup_range' _ _

/-! ## C5: selector-descriptor variant choice -/

/-- An element with trim-clean `name` and `type` attributes matches its own
    derived structural selector. -/
theorem matchesSelQuery_self (info : NodeInfo)
    (hname : jsTrim (attrD info "name") = attrD info "name")
    (htype : jsTrim (attrD info "type") = attrD info "type") :
    matchesSelQuery (selQueryOf info) info = true := by
  simp only [matchesSelQuery, selQueryOf]
  split_ifs <;> simp [hname, htype]

/-- C5: for an element of the document whose `name` / `type` attributes carry
    no surrounding whitespace, the capture-time descriptor is the plain
    variant exactly when the derived selector matches exactly one node, the
    text-qualified (xpath) variant exactly when several nodes match and the
    element carries non-empty text, and the indexed (nth) variant exactly
    when several match and there is no text — in particular an indexed path
    is never chosen when non-empty text is available. -/
theorem C5_selector_variants (root n : Dom) (h : n ∈ domList root)
    (hname : jsTrim (attrD n.info "name") = attrD n.info "name")
    (htype : jsTrim (attrD n.info "type") = attrD n.info "type") :
    (((domList root).filter (fun m => matchesSelQuery (selQueryOf n.info) m.info)).length = 1
      ↔ ∃ s, getStableSelector root n = .selector s)
    ∧ (1 < ((domList root).filter
          (fun m => matchesSelQuery (selQueryOf n.info) m.info)).length
        ∧ selText n.info ≠ "" ↔ ∃ v, getStableSelector root n = .xpath v)
    ∧ (1 < ((domList root).filter
          (fun m => matchesSelQuery (selQueryOf n.info) m.info)).length
        ∧ selText n.info = "" ↔ ∃ s i, getStableSelector root n = .nth s i)
    ∧ (selText n.info ≠ "" → ∀ s i, getStableSelector root n ≠ .nth s i) := by
  have hm := matchesSelQuery_self n.info hname htype
  have hpos : 0 < ((domList root).filter
      (fun m => matchesSelQuery (selQueryOf n.info) m.info)).length :=
    List.length_pos_of_mem (List.mem_filter.mpr ⟨h, hm⟩)
  rcases Nat.lt_or_ge 1 ((domList root).filter
      (fun m => matchesSelQuery (selQueryOf n.info) m.info)).length with hgt | hle
  · by_cases htxt : selText n.info = ""
    · have hd : getStableSelector root n
          = .nth (selectorStringOf n.info)
              (jsIndexOf ((domList root).filter
                (fun m => matchesSelQuery (selQueryOf n.info) m.info)) n) := by
        unfold getStableSelector
        rw [if_neg (by simp [htxt]), if_pos hgt]
      refine ⟨⟨fun h1 => absurd hgt (by omega), fun ⟨s, hs⟩ => ?_⟩,
        ⟨fun hx => absurd htxt hx.2, fun ⟨v, hv⟩ => ?_⟩,
        ⟨fun _ => ⟨_, _, hd⟩, fun _ => ⟨hgt, htxt⟩⟩,
        fun hne => absurd htxt hne⟩
      · rw [hd] at hs; cases hs
      · rw [hd] at hv; cases hv
    · have hd : getStableSelector root n
          = .xpath ("//" ++ selectorStringOf n.info
              ++ "[contains(normalize-space(.), \"" ++ escapeXPathText (selText n.info)
              ++ "\")]") := by
        unfold getStableSelector
        rw [if_pos ⟨hgt, htxt⟩]
      refine ⟨⟨fun h1 => absurd hgt (by omega), fun ⟨s, hs⟩ => ?_⟩,
        ⟨fun _ => ⟨_, hd⟩, fun _ => ⟨hgt, htxt⟩⟩,
        ⟨fun hx => absurd hx.2 htxt, fun ⟨s, i, hsi⟩ => ?_⟩,
        fun _ s i hsi => by rw [hd] at hsi; cases hsi⟩
      · rw [hd] at hs; cases hs
      · rw [hd] at hsi; cases hsi
  · have h1 : ((domList root).filter
        (fun m => matchesSelQuery (selQueryOf n.info) m.info)).length = 1 := by omega
    have hd : getStableSelector root n = .selector (selectorStringOf n.info) := by
      unfold getStableSelector
      rw [if_neg (by omega), if_neg (by omega)]
    refine ⟨⟨fun _ => ⟨_, hd⟩, fun _ => h1⟩,
      ⟨fun hx => absurd hx.1 (by omega), fun ⟨v, hv⟩ => ?_⟩,
      ⟨fun hx => absurd hx.1 (by omega), fun ⟨s, i, hsi⟩ => ?_⟩,
      fun _ s i hsi => by rw [hd] at hsi; cases hsi⟩
    · rw [hd] at hv; cases hv
    · rw [hd] at hsi; cases hsi

/-- C5 witness: in the single-node document the derived selector matches
    exactly one node and the plain variant is chosen. -/
theorem C5_selector_variants_witness :
    ∃ s, getStableSelector bodyOnlyDoc bodyOnlyDoc = .selector s :=
  (C5_selector_variants bodyOnlyDoc bodyOnlyDoc
      (by simp [bodyOnlyDoc, domList, domListL]) rfl rfl).1.mp
    (by simp only [domList, domListL]; decide)

/-! ## C4: loop termination -/

/-- With a non-throwing `navigate` and `scroll`, the dispatcher always
    returns a result, and only the two terminal tools can set `stop`. -/
theorem executeTool_nonterminal (name : String) (args : Args) (snapshot : Snapshot)
    (browser : Browser)
    (hnav : ∀ url, browser.navigate url = .ok ())
    (hscroll : ∀ d, browser.scroll d = .ok ())
    (h1 : name ≠ "task_done") (h2 : name ≠ "request_user_input") :
    ∃ r, executeTool name args snapshot browser = .ok r ∧ r.stop = false := by
  by_cases e1 : name = "navigate"
  · subst e1
    rcases hu : asStr (args.get "url") with _ | url
    · exact ⟨_, by simp [executeTool, hu]; try rfl, rfl⟩
    · exact ⟨_, by simp [executeTool, hu, hnav]; try rfl, rfl⟩
  by_cases e2 : name = "open_new_tab"
  · subst e2
    rcases hb : browser.newTab (asStr (args.get "url")) with e | u
    · exact ⟨_, by simp [executeTool, hb]; try rfl, rfl⟩
    · exact ⟨_, by simp [executeTool, hb]; try rfl, rfl⟩
  by_cases e3 : name = "switch_tab"
  · subst e3
    rcases ht : asNum (args.get "tab_index") with _ | t
    · exact ⟨_, by simp [executeTool, ht]; try rfl, rfl⟩
    · rcases hb : browser.switchTab t with e | u
      · exact ⟨_, by simp [executeTool, ht, hb]; try rfl, rfl⟩
      · exact ⟨_, by simp [executeTool, ht, hb]; try rfl, rfl⟩
  by_cases e4 : name = "click_element"
  · subst e4
    rcases hi : asNum (args.get "element_id") with _ | eid
    · exact ⟨_, by simp [executeTool, hi]; try rfl, rfl⟩
    · by_cases hdis : ((snapshot.elements.find? (fun e => (e.id : Int) = eid)).map
          (·.disabled)).getD false = true
      · exact ⟨_, by simp [executeTool, hi, hdis]; try rfl, rfl⟩
      · rcases hb : browser.clickElement snapshot eid with e | u
        · exact ⟨_, by simp [executeTool, hi, hdis, hb]; try rfl, rfl⟩
        · exact ⟨_, by simp [executeTool, hi, hdis, hb]; try rfl, rfl⟩
  by_cases e5 : name = "type_text"
  · subst e5
    rcases htx : asStr (args.get "text") with _ | text
    · exact ⟨_, by simp [executeTool, htx]; try rfl, rfl⟩
    · rcases hb : browser.typeText snapshot (asNum (args.get "element_id")) text with e | u
      · exact ⟨_, by simp [executeTool, htx, hb]; try rfl, rfl⟩
      · exact ⟨_, by simp [executeTool, htx, hb]; try rfl, rfl⟩
  by_cases e6 : name = "select_option"
  · subst e6
    rcases hi : asNum (args.get "element_id") with _ | eid
    · exact ⟨_, by simp [executeTool, hi]; try rfl, rfl⟩
    · rcases hv : asStr (args.get "value_or_label") with _ | v
      · exact ⟨_, by simp [executeTool, hi, hv]; try rfl, rfl⟩
      · rcases hb : browser.selectOption snapshot eid v with e | u
        · exact ⟨_, by simp [executeTool, hi, hv, hb]; try rfl, rfl⟩
        · exact ⟨_, by simp [executeTool, hi, hv, hb]; try rfl, rfl⟩
  by_cases e7 : name = "set_checkbox"
  · subst e7
    rcases hi : asNum (args.get "element_id") with _ | eid
    · exact ⟨_, by simp [executeTool, hi]; try rfl, rfl⟩
    · rcases hc : asBool (args.get "checked") with _ | checked
      · exact ⟨_, by simp [executeTool, hi, hc]; try rfl, rfl⟩
      · rcases hb : browser.setCheckbox snapshot eid checked with e | u
        · exact ⟨_, by simp [executeTool, hi, hc, hb]; try rfl, rfl⟩
        · exact ⟨_, by simp [executeTool, hi, hc, hb]; try rfl, rfl⟩
  by_cases e8 : name = "scroll"
  · subst e8
    rcases hdv : args.get "direction" with _ | v
    · exact ⟨_, by simp [executeTool, hdv]; try rfl, rfl⟩
    · cases v with
      | str d =>
        by_cases hval : d = "up" ∨ d = "down" ∨ d = "left" ∨ d = "right"
        · exact ⟨_, by simp [executeTool, hdv, hval, hscroll]; try rfl, rfl⟩
        · exact ⟨_, by simp [executeTool, hdv, hval]; try rfl, rfl⟩
      | num n => exact ⟨_, by simp [executeTool, hdv]; try rfl, rfl⟩
      | bool b => exact ⟨_, by simp [executeTool, hdv]; try rfl, rfl⟩
      | null => exact ⟨_, by simp [executeTool, hdv]; try rfl, rfl⟩
  by_cases e9 : name = "wait"
  · subst e9
    exact ⟨_, by simp [executeTool]; try rfl, rfl⟩
  exact ⟨_, by simp [executeTool, e1, e2, e3, e4, e5, e6, e7, e8, e9, h1, h2]; try rfl, rfl⟩

/-- The gate-then-execute step likewise never sets `stop` for a non-terminal
    tool: the denial result does not stop, and execution dispatches the
    dispatcher. -/
theorem decideActionResult_nonterminal (name : String) (args : Args) (snapshot : Snapshot)
    (conf : Option (String → Bool)) (browser : Browser)
    (hnav : ∀ url, browser.navigate url = .ok ())
    (hscroll : ∀ d, browser.scroll d = .ok ())
    (h1 : name ≠ "task_done") (h2 : name ≠ "request_user_input") :
    ∃ r, decideActionResult name args snapshot conf browser = .ok r ∧ r.stop = false := by
  rcases conf with _ | c
  · exact executeTool_nonterminal name args snapshot browser hnav hscroll h1 h2
  · by_cases hd : (checkDestructiveAction name args snapshot).destructive = true
    · by_cases hc : c ((checkDestructiveAction name args snapshot).description.getD
          "Sensitive action") = true
      · obtain ⟨r, hr, hs⟩ := executeTool_nonterminal name args snapshot browser hnav hscroll h1 h2
        exact ⟨r, by simp [decideActionResult, hd, hc, hr], hs⟩
      · exact ⟨_, by simp [decideActionResult, hd, hc]; try rfl, rfl⟩
    · obtain ⟨r, hr, hs⟩ := executeTool_nonterminal name args snapshot browser hnav hscroll h1 h2
      exact ⟨r, by simp [decideActionResult, hd, hr], hs⟩

/-- An oracle that answers `task_done` ends the loop on that very cycle with
    the oracle-provided summary. -/
theorem runAgentAux_taskdone (deps : AgentDeps) (s raw : String) (fuel i : Nat)
    (msgs : List Msg)
    (h : ∀ m, deps.oracle i m = .toolCall "task_done" [("result", .str s)] raw) :
    runAgentAux deps (fuel + 1) i msgs = .ok ({ done := true, result := some s }, 1) := by
  have he : executeTool "task_done" [("result", .str s)] (deps.getSnapshot i) deps.browser
      = .ok ⟨true, s, true, none⟩ := rfl
  have hsec : (checkDestructiveAction "task_done" [("result", .str s)]
      (deps.getSnapshot i)).destructive = false := rfl
  have hd : decideActionResult "task_done" [("result", .str s)] (deps.getSnapshot i)
      deps.getUserConfirmation deps.browser = .ok ⟨true, s, true, none⟩ := by
    unfold decideActionResult
    rcases deps.getUserConfirmation with _ | c
    · exact he
    · simp [hsec, he]
  simp only [runAgentAux, h, hd]
  rfl

/-- An oracle that always answers and never picks a terminal tool drives the
    loop through every remaining iteration to exhaustion. -/
theorem runAgentAux_exhaust (deps : AgentDeps)
    (h1 : ∀ i msgs, deps.oracle i msgs ≠ .noChoice)
    (h2 : ∀ i msgs nm args raw, deps.oracle i msgs = .toolCall nm args raw →
      nm ≠ "task_done" ∧ nm ≠ "request_user_input")
    (hnav : ∀ url, deps.browser.navigate url = .ok ())
    (hscroll : ∀ d, deps.browser.scroll d = .ok ()) :
    ∀ (fuel i : Nat) (msgs : List Msg),
      runAgentAux deps fuel i msgs
        = .ok ({ done := false, error := some "Max iterations reached" }, fuel) := by
  intro fuel
  induction fuel with
  | zero => intro i msgs; rfl
  | succ fuel ih =>
    intro i msgs
    simp only [runAgentAux]
    cases ho : deps.oracle i (pushStateMsg msgs i
        ("Current page state:\n\n" ++ formatSnapshotForPrompt (deps.getSnapshot i))) with
    | noChoice => exact absurd ho (h1 _ _)
    | textStop c => simp only [ih]; rfl
    | textOther c => simp only [ih]; rfl
    | toolCall nm args raw =>
      obtain ⟨ht1, ht2⟩ := h2 _ _ _ _ _ ho
      obtain ⟨r, hr, hstop⟩ := decideActionResult_nonterminal nm args (deps.getSnapshot i)
        deps.getUserConfirmation deps.browser hnav hscroll ht1 ht2
      simp only [hr, hstop, ih]
      rfl

/-- C4: if the oracle returns `task_done` on the first decision the loop
    terminates after exactly one cycle with `done = true` and the provided
    summary; if the oracle always answers but never picks a terminal tool
    (so no ActionResult ever stops) and the unguarded environment calls do
    not throw, the loop terminates after exactly the 80-iteration ceiling
    with the exhaustion error. -/
theorem C4_loop_termination :
    (∀ (deps : AgentDeps) (s raw : String),
        (∀ msgs, deps.oracle 0 msgs = .toolCall "task_done" [("result", .str s)] raw) →
        runAgent deps = .ok ({ done := true, result := some s }, 1))
    ∧ (∀ deps : AgentDeps,
        (∀ i msgs, deps.oracle i msgs ≠ .noChoice) →
        (∀ i msgs nm args raw, deps.oracle i msgs = .toolCall nm args raw →
          nm ≠ "task_done" ∧ nm ≠ "request_user_input") →
        (∀ url, deps.browser.navigate url = .ok ()) →
        (∀ d, deps.browser.scroll d = .ok ()) →
        runAgent deps
          = .ok ({ done := false, error := some "Max iterations reached" },
              MAX_ITERATIONS)) := by
  constructor
  · intro deps s raw h
    exact runAgentAux_taskdone deps s raw 79 0 (initialMessages deps) h
  · intro deps h1 h2 hnav hscroll
    exact runAgentAux_exhaust deps h1 h2 hnav hscroll MAX_ITERATIONS 0 (initialMessages deps)

/-- C4 witness: the always-`task_done` oracle stops after one cycle with its
    summary; the always-`wait` oracle exhausts all 80 iterations. -/
theorem C4_loop_termination_witness :
    runAgent depsTaskDone = .ok ({ done := true, result := some "booked the flight" }, 1)
    ∧ runAgent depsWaitForever
        = .ok ({ done := false, error := some "Max iterations reached" }, MAX_ITERATIONS) :=
  ⟨C4_loop_termination.1 depsTaskDone "booked the flight" "" (fun _ => rfl),
   C4_loop_termination.2 depsWaitForever (fun _ _ h => by cases h)
     (fun _ _ _ _ _ h => by cases h; exact ⟨by decide, by decide⟩)
     (fun _ => rfl) (fun _ => rfl)⟩

/-! ## C1: policy denial short-circuits execution -/

/-- C1: whenever the policy gate classifies the proposed action as
    destructive and the confirmation capability answers `false`, the loop's
    gate-then-execute step returns the synthesized denial result
    (`success = false`, "User denied the action.") for every environment
    alike — the result does not depend on the browser, so `executeTool` and
    the environment are never consulted for that action. -/
theorem C1_denial_skips_executor (name : String) (args : Args) (snapshot : Snapshot)
    (confirm : String → Bool)
    (hdes : (checkDestructiveAction name args snapshot).destructive = true)
    (hdeny : confirm ((checkDestructiveAction name args snapshot).description.getD
      "Sensitive action") = false) :
    ∀ browser : Browser,
      decideActionResult name args snapshot (some confirm) browser
        = .ok ⟨false, "User denied the action.", false, none⟩ := by
  intro browser
  simp [decideActionResult, hdes, hdeny]

/-- C1 witness: the destructive "Delete account" click with an
    always-denying confirmation capability yields the denial result. -/
theorem C1_denial_skips_executor_witness :
    decideActionResult "click_element" [("element_id", .num 1)] deleteSnap
      (some (fun _ => false)) okBrowser
      = .ok ⟨false, "User denied the action.", false, none⟩ :=
  C1_denial_skips_executor "click_element" [("element_id", .num 1)] deleteSnap
    (fun _ => false) (by decide) rfl okBrowser

end Agent
